import Mathlib

/-!
Verification development for the iCalendar-aware `ZonedDateTime` wrapper of
`docs/cookbook/icalendarTimeZones.mjs` in the proposal-temporal repository.

The wrapper class is embedded faithfully from the source file.  The underlying
Temporal engine (`polyfill/lib/temporal.mjs`) and the `ical.js` time-zone
objects are not part of the visible sources; they are modelled from the
repository specification (calendar field decomposition, time-zone offset rule
tables, wall-clock-to-instant resolution with disambiguation, duration
balancing).  All machine arithmetic is carried out on `Int` (JS numbers and
BigInts in the source are exact integers on every path exercised here); `/`
and `%` on `Int` are floor-style division, matching `Math.floor` in the
source.  Fallible operations return `Except ErrKind`.
-/

/-- Error taxonomy of the wrapper (spec section 7): `RangeError`-equivalent,
`TypeError`-equivalent (the wrapper throws a bare `new TypeError()` in
`valueOf`), and the deliberate `new Error('not implemented')` gap. -/
inductive ErrKind where
  | rangeError : ErrKind
  | typeError : ErrKind
  | notImplemented : ErrKind
deriving Repr, DecidableEq

instance exceptDecEq {ε α : Type} [DecidableEq ε] [DecidableEq α] : DecidableEq (Except ε α) := fun a b =>
  match a, b with
  | Except.ok x, Except.ok y =>
      if h : x = y then Decidable.isTrue (by rw [h])
      else Decidable.isFalse (fun hh => h (by injection hh))
  | Except.error x, Except.error y =>
      if h : x = y then Decidable.isTrue (by rw [h])
      else Decidable.isFalse (fun hh => h (by injection hh))
  | Except.ok _, Except.error _ => Decidable.isFalse (fun hh => Except.noConfusion hh)
  | Except.error _, Except.ok _ => Decidable.isFalse (fun hh => Except.noConfusion hh)

def nsPerSecond : Int := 1000000000

def nsPerMinute : Int := 60000000000

def nsPerHour : Int := 3600000000000

def nsPerDay : Int := 86400000000000

/-- Modelled from the spec: the ISO-8601 proleptic Gregorian leap-year rule
used by the engine's `Calendar` capability (spec section 4.3). -/
def Calendar.isLeapYear (y : Int) : Bool :=
  y % 4 == 0 && (y % 100 != 0 || y % 400 == 0)

/-- Modelled from the spec: `daysInMonth` comparison primitive of the ISO
calendar capability (spec sections 3 and 4.3). -/
def Calendar.daysInMonth (y m : Int) : Int :=
  if m = 1 ∨ m = 3 ∨ m = 5 ∨ m = 7 ∨ m = 8 ∨ m = 10 ∨ m = 12 then 31
  else if m = 2 then (if Calendar.isLeapYear y then 29 else 28)
  else 30

/-- Modelled from the spec: day number since the epoch day 1970-01-01 of an
ISO calendar date (field-to-date construction, spec section 4.3).  Standard
civil-calendar arithmetic with floor division. -/
def daysFromCivil (y m d : Int) : Int :=
  let yr := if m ≤ 2 then y - 1 else y
  let era := yr / 400
  let yoe := yr - era * 400
  let mp := (m + 9) % 12
  let doy := (153 * mp + 2) / 5 + d - 1
  let doe := yoe * 365 + yoe / 4 - yoe / 100 + doy
  era * 146097 + doe - 719468

/-- Modelled from the spec: ISO calendar date of a day number since
1970-01-01 (field decomposition, spec section 4.3). -/
def civilFromDays (z : Int) : Int × Int × Int :=
  let z2 := z + 719468
  let era := z2 / 146097
  let doe := z2 - era * 146097
  let yoe := (doe - doe / 1460 + doe / 36524 - doe / 146096) / 365
  let y := yoe + era * 400
  let doy := doe - (365 * yoe + yoe / 4 - yoe / 100)
  let mp := (5 * doy + 2) / 153
  let d := doy - (153 * mp + 2) / 5 + 1
  let m := if mp < 10 then mp + 3 else mp - 9
  (if m ≤ 2 then y + 1 else y, m, d)

/-- Duration data model (spec section 3): ten signed fields, immutable. -/
structure Duration where
  years : Int
  months : Int
  weeks : Int
  days : Int
  hours : Int
  minutes : Int
  seconds : Int
  milliseconds : Int
  microseconds : Int
  nanoseconds : Int
deriving Repr, DecidableEq

/-- The calendar-unit part of a duration is all zero (the fast-path test of
`ZonedDateTime.add`, icalendarTimeZones.mjs lines 156-159). -/
def Duration.dateUnitsZero (d : Duration) : Prop :=
  d.years = 0 ∧ d.months = 0 ∧ d.weeks = 0 ∧ d.days = 0

instance (d : Duration) : Decidable d.dateUnitsZero := by
  unfold Duration.dateUnitsZero; exact instDecidableAnd

/-- Calendar-unit part of a duration (years/months/weeks/days), as split off
by `ZonedDateTime.add` (icalendarTimeZones.mjs lines 163-171). -/
def Duration.dateOnly (d : Duration) : Duration :=
  { years := d.years, months := d.months, weeks := d.weeks, days := d.days,
    hours := 0, minutes := 0, seconds := 0,
    milliseconds := 0, microseconds := 0, nanoseconds := 0 }

/-- Time-unit part of a duration (hours..nanoseconds), as rebuilt by
`ZonedDateTime.add` (icalendarTimeZones.mjs lines 173-182). -/
def Duration.timeOnly (d : Duration) : Duration :=
  { years := 0, months := 0, weeks := 0, days := 0,
    hours := d.hours, minutes := d.minutes, seconds := d.seconds,
    milliseconds := d.milliseconds, microseconds := d.microseconds,
    nanoseconds := d.nanoseconds }

/-- Total nanoseconds of the time-unit part of a duration (time units are
fixed-length, spec glossary). -/
def Duration.timeNs (d : Duration) : Int :=
  d.hours * nsPerHour + d.minutes * nsPerMinute + d.seconds * nsPerSecond +
    d.milliseconds * 1000000 + d.microseconds * 1000 + d.nanoseconds

/-- PlainTime data model (spec section 3). -/
structure PlainTime where
  hour : Int
  minute : Int
  second : Int
  millisecond : Int
  microsecond : Int
  nanosecond : Int
deriving Repr, DecidableEq

/-- Result of `Temporal.PlainTime.from('00:00')` (icalendarTimeZones.mjs
line 200). -/
def PlainTime.midnight : PlainTime :=
  { hour := 0, minute := 0, second := 0, millisecond := 0, microsecond := 0, nanosecond := 0 }

/-- PlainDateTime data model (spec section 3): calendar-bound wall-clock
field tuple with no time zone. -/
structure PlainDateTime where
  year : Int
  month : Int
  day : Int
  hour : Int
  minute : Int
  second : Int
  millisecond : Int
  microsecond : Int
  nanosecond : Int
  calendarId : String
deriving Repr, DecidableEq

/-- Modelled from the spec: era decomposition of the pluggable calendar
capability (spec section 3; `iso8601` has no era, the `gregory` calendar
uses ce/bce). -/
def eraOf (cal : String) (y : Int) : Option String :=
  if cal = "gregory" then some (if y ≤ 0 then "bce" else "ce") else none

/-- Modelled from the spec: eraYear decomposition of the pluggable calendar
capability (spec section 3). -/
def eraYearOf (cal : String) (y : Int) : Option Int :=
  if cal = "gregory" then some (if y ≤ 0 then 1 - y else y) else none

/-- Modelled from the spec: monthCode field of the calendar field
decomposition (spec section 4.3). -/
def monthCodeOf (m : Int) : String :=
  if m < 10 then "M0" ++ toString m else "M" ++ toString m

def PlainDateTime.era (pdt : PlainDateTime) : Option String := eraOf pdt.calendarId pdt.year

def PlainDateTime.eraYear (pdt : PlainDateTime) : Option Int := eraYearOf pdt.calendarId pdt.year

def PlainDateTime.monthCode (pdt : PlainDateTime) : String := monthCodeOf pdt.month

/-- Nanoseconds since local midnight of a wall-clock field tuple. -/
def PlainDateTime.timeNsOfDay (pdt : PlainDateTime) : Int :=
  pdt.hour * nsPerHour + pdt.minute * nsPerMinute + pdt.second * nsPerSecond +
    pdt.millisecond * 1000000 + pdt.microsecond * 1000 + pdt.nanosecond

/-- Sub-second nanoseconds of a wall-clock field tuple (the part `ical.js`
cannot represent; icalendarTimeZones.mjs lines 78-79 carry it separately). -/
def PlainDateTime.subsecondNs (pdt : PlainDateTime) : Int :=
  pdt.millisecond * 1000000 + pdt.microsecond * 1000 + pdt.nanosecond

/-- Wall-clock fields read as nanoseconds on a UTC-like continuous clock
(the UTC-assuming instant of spec section 4.4). -/
def PlainDateTime.wallNs (pdt : PlainDateTime) : Int :=
  daysFromCivil pdt.year pdt.month pdt.day * nsPerDay + pdt.timeNsOfDay

/-- Wall-clock fields truncated to whole seconds, as nanoseconds (`ICAL.Time`
holds only year..second; icalendarTimeZones.mjs lines 76-79). -/
def PlainDateTime.wallSecondNs (pdt : PlainDateTime) : Int :=
  daysFromCivil pdt.year pdt.month pdt.day * nsPerDay +
    (pdt.hour * 3600 + pdt.minute * 60 + pdt.second) * nsPerSecond

/-- Modelled from the spec: build the wall-clock field tuple of a given day
number and nanosecond-of-day (calendar field decomposition, spec
section 4.3). -/
def pdtOfDaysTime (days tod : Int) (cal : String) : PlainDateTime :=
  let c := civilFromDays days
  { year := c.1, month := c.2.1, day := c.2.2,
    hour := tod / nsPerHour,
    minute := (tod / nsPerMinute) % 60,
    second := (tod / nsPerSecond) % 60,
    millisecond := (tod / 1000000) % 1000,
    microsecond := (tod / 1000) % 1000,
    nanosecond := tod % 1000,
    calendarId := cal }

/-- Modelled from the spec: decompose an epoch-nanosecond value, read as a
UTC wall clock, into calendar fields (spec section 2 data flow). -/
def pdtFromEpochNsUTC (t : Int) (cal : String) : PlainDateTime :=
  pdtOfDaysTime (t / nsPerDay) (t % nsPerDay) cal

/-- Modelled from the spec: rebalance an out-of-range month into the year
(calendar date arithmetic, spec section 4.3). -/
def balanceYearMonth (y m : Int) : Int × Int :=
  (y + (m - 1) / 12, (m - 1) % 12 + 1)

/-- Modelled from the spec: `dateAdd` of the ISO calendar capability with the
`constrain` overflow policy (add years and months, clamp the day to the
month length, then shift by weeks and days; spec section 4.3). -/
def addISODate (y m d years months weeks days : Int) : Int × Int × Int :=
  let ym := balanceYearMonth (y + years) (m + months)
  let d1 := min d (Calendar.daysInMonth ym.1 ym.2)
  civilFromDays (daysFromCivil ym.1 ym.2 d1 + 7 * weeks + days)

/-- Modelled from the spec: `PlainDateTime.prototype.add` of the engine —
calendar-unit part via the calendar's `dateAdd` (constrain policy), time-unit
part as an exact shift of the nanosecond-of-day with carry into days (spec
sections 2 and 4.3).  The overflow option is not modelled: every call in the
wrapper uses the default `constrain` policy. -/
def PlainDateTime.add (pdt : PlainDateTime) (dur : Duration) : PlainDateTime :=
  let c := addISODate pdt.year pdt.month pdt.day dur.years dur.months dur.weeks dur.days
  let t := pdt.timeNsOfDay + dur.timeNs
  pdtOfDaysTime (daysFromCivil c.1 c.2.1 c.2.2 + t / nsPerDay) (t % nsPerDay) pdt.calendarId

/-- Replace the time fields of a wall-clock tuple
(`PlainDateTime.prototype.withPlainTime` of the engine, used at
icalendarTimeZones.mjs line 201). -/
def PlainDateTime.withPlainTime (pdt : PlainDateTime) (t : PlainTime) : PlainDateTime :=
  { pdt with hour := t.hour, minute := t.minute, second := t.second,
             millisecond := t.millisecond, microsecond := t.microsecond,
             nanosecond := t.nanosecond }

/-- The twelve wall-clock fields the wrapper stores as public property-bag
properties (icalendarTimeZones.mjs lines 43-55), read off a PlainDateTime. -/
def PlainDateTime.fieldsTuple (pdt : PlainDateTime) :
    Option String × Option Int × Int × Int × String × Int × Int × Int × Int × Int × Int × Int :=
  (pdt.era, pdt.eraYear, pdt.year, pdt.month, pdt.monthCode, pdt.day,
    pdt.hour, pdt.minute, pdt.second, pdt.millisecond, pdt.microsecond, pdt.nanosecond)

/-- TimeZone capability (spec sections 3 and 4.4): a pure function of an
immutable rule table.  `tzid` is the iCalendar TZID; `initialOffset` is the
UTC offset in nanoseconds before the first transition; `transitions` lists
`(epochNs, newOffsetNs)` pairs in chronological order (for IANA zones this is
the transition history, for rule-based zones the expansion of the RRULE). -/
structure TimeZone where
  tzid : String
  initialOffset : Int
  transitions : List (Int × Int)
deriving Repr, DecidableEq

/-- Offset in effect at instant `t` according to a rule table: the offset
introduced by the last transition at or before `t` (spec section 4.4,
instant-to-offset direction). -/
def offsetFromTable (init : Int) : List (Int × Int) → Int → Int
  | [], _ => init
  | tr :: rest, t => offsetFromTable (if tr.1 ≤ t then tr.2 else init) rest t

/-- Modelled from the spec: `getOffsetNanosecondsFor` of the TimeZone
capability (spec section 6). -/
def TimeZone.offsetAt (tz : TimeZone) (t : Int) : Int :=
  offsetFromTable tz.initialOffset tz.transitions t

/-- Rule tables produced from iCalendar VTIMEZONE data (and from the IANA
database) place every transition on a whole-second boundary; `ICAL.Time`
cannot even represent anything finer. -/
def TimeZone.secondAligned (tz : TimeZone) : Prop :=
  ∀ p ∈ tz.transitions, p.1 % nsPerSecond = 0

instance (tz : TimeZone) : Decidable tz.secondAligned := by
  unfold TimeZone.secondAligned; exact List.decidableBAll _ _

/-- Modelled from the spec: the injected environment capability answering
which time-zone identifiers the host (`Intl.supportedValuesOf('timeZone')`,
icalendarTimeZones.mjs line 34) recognises as IANA zones; restricted to the
identifiers this development exercises (spec section 9, design note on
ambient environment lookups). -/
def supportedTimeZones : List String :=
  ["UTC", "America/Los_Angeles", "America/New_York", "America/Sao_Paulo", "Europe/London"]

/-- Modelled from the spec: the engine's per-identifier IANA rule table
(parsed transition history, spec sections 4.4 and 5), restricted to the
window of instants this development exercises.  America/Los_Angeles carries
its 2012 DST transitions; America/Sao_Paulo carries its 2017 spring-forward
transition, which falls at local midnight.  Unlisted identifiers (including
UTC) resolve to a fixed zero offset. -/
def ianaRules (tzid : String) : Int × List (Int × Int) :=
  if tzid = "America/Los_Angeles" then
    (-28800000000000,
      [(1331460000000000000, -25200000000000), (1352019600000000000, -28800000000000)])
  else if tzid = "America/Sao_Paulo" then
    (-10800000000000, [(1508036400000000000, -7200000000000)])
  else (0, [])

/-- Modelled from the spec: instant-to-offset lookup of the engine for an
IANA zone identifier (spec section 4.4). -/
def ianaOffsetAt (tzid : String) (t : Int) : Int :=
  offsetFromTable (ianaRules tzid).1 (ianaRules tzid).2 t

/-- Disambiguation policy (spec section 4.4).  The `reject` policy, which
raises instead of choosing, is not modelled: no operation of the wrapper
ever selects it. -/
inductive Disambiguation where
  | compatible : Disambiguation
  | earlier : Disambiguation
  | later : Disambiguation
deriving Repr, DecidableEq

/-- Modelled from the spec: the set of instants whose local wall clock in the
zone shows `w` — the candidate offsets are taken one day before and one day
after the UTC-assuming instant and checked for validity; 0 results is a DST
gap, 2 a fall-back overlap (spec section 4.4). -/
def possibleInstants (off : Int → Int) (w : Int) : List Int :=
  let c1 := w - off (w - nsPerDay)
  let c2 := w - off (w + nsPerDay)
  (if c1 = c2 then [c1] else [c1, c2]).filter (fun t => t + off t == w)

/-- Modelled from the spec: resolve wall-clock fields (as the UTC-assuming
nanosecond value `w`) to exactly one instant under a disambiguation policy
(spec section 4.4).  In a fall-back overlap `compatible` and `earlier` pick
the pre-transition instant and `later` the post-transition one; in a
spring-forward gap `compatible` and `later` interpret the wall time with the
pre-transition offset (landing just after the transition) and `earlier` with
the post-transition offset. -/
def resolveWall (off : Int → Int) (w : Int) (dis : Disambiguation) : Int :=
  let c1 := w - off (w - nsPerDay)
  let c2 := w - off (w + nsPerDay)
  if c1 + off c1 = w then
    (if c2 + off c2 = w ∧ dis = Disambiguation.later then c2 else c1)
  else if c2 + off c2 = w then c2
  else (if dis = Disambiguation.earlier then c2 else c1)

/-- Modelled from the spec: `ICAL.Time(pdt, zone).toUnixTime()` — interpret
the wall-clock fields, truncated to whole seconds, in the rule-based zone and
return epoch seconds.  `ical.js` interprets an ambiguous or nonexistent local
time with the offset in effect before the transition, which coincides with
the `compatible` policy (spec sections 4.4 and 6; the `disambiguation`
parameter of the caller is not consulted — see the source comment `apply
disambiguation parameter?` at icalendarTimeZones.mjs line 77). -/
def icalToUnixTime (tz : TimeZone) (pdt : PlainDateTime) : Int :=
  resolveWall tz.offsetAt pdt.wallSecondNs Disambiguation.compatible / nsPerSecond

/-- Engine ZonedDateTime (spec sections 3 and 4.5): an Instant plus a
TimeZone reference (an IANA identifier: the wrapper only ever hands the
engine an identifier from the supported list, or the literal `UTC`) plus a
Calendar reference.  Wall-clock fields are derived, never stored
(spec section 3). -/
structure Temporal.ZonedDateTime where
  epochNanoseconds : Int
  timeZoneId : String
  calendarId : String
deriving Repr, DecidableEq

def Temporal.ZonedDateTime.offsetNanoseconds (z : Temporal.ZonedDateTime) : Int :=
  ianaOffsetAt z.timeZoneId z.epochNanoseconds

/-- Modelled from the spec: derive wall-clock fields via
`TimeZone.getOffsetFor(Instant)` then calendar field decomposition (spec
section 2, data flow). -/
def Temporal.ZonedDateTime.toPlainDateTime (z : Temporal.ZonedDateTime) : PlainDateTime :=
  pdtFromEpochNsUTC (z.epochNanoseconds + z.offsetNanoseconds) z.calendarId

def Temporal.ZonedDateTime.epochMilliseconds (z : Temporal.ZonedDateTime) : Int :=
  z.epochNanoseconds / 1000000

/-- An Instant is its nanosecond offset from the epoch (spec section 3). -/
def Temporal.ZonedDateTime.toInstant (z : Temporal.ZonedDateTime) : Int :=
  z.epochNanoseconds

/-- Modelled from the spec: engine `ZonedDateTime.prototype.add` — split the
duration; when the calendar-unit part is zero the result is an exact Instant
shift, otherwise the calendar-unit part is applied via PlainDateTime
arithmetic on the current wall-clock fields, re-resolved with `compatible`
disambiguation, and the time-unit part is then an exact Instant shift (spec
sections 2 and 4.5). -/
def Temporal.ZonedDateTime.add (z : Temporal.ZonedDateTime) (d : Duration) : Temporal.ZonedDateTime :=
  if d.dateUnitsZero then
    { epochNanoseconds := z.epochNanoseconds + d.timeNs,
      timeZoneId := z.timeZoneId, calendarId := z.calendarId }
  else
    let pdt := z.toPlainDateTime.add d.dateOnly
    let epoch := resolveWall (ianaOffsetAt z.timeZoneId) pdt.wallNs Disambiguation.compatible
    { epochNanoseconds := epoch + d.timeNs,
      timeZoneId := z.timeZoneId, calendarId := z.calendarId }

/-- Temporal unit names accepted as `largestUnit` (singular forms, as the
wrapper's `until` expects; icalendarTimeZones.mjs lines 185-196). -/
inductive TimeUnit where
  | year : TimeUnit
  | month : TimeUnit
  | week : TimeUnit
  | day : TimeUnit
  | hour : TimeUnit
  | minute : TimeUnit
  | second : TimeUnit
  | millisecond : TimeUnit
  | microsecond : TimeUnit
  | nanosecond : TimeUnit
deriving Repr, DecidableEq

/-- Rank of a unit, largest first: `year` is 0, `nanosecond` is 9.  A unit is
`hour` or smaller exactly when its rank is at least 4. -/
def unitRank : TimeUnit → Nat
  | TimeUnit.year => 0
  | TimeUnit.month => 1
  | TimeUnit.week => 2
  | TimeUnit.day => 3
  | TimeUnit.hour => 4
  | TimeUnit.minute => 5
  | TimeUnit.second => 6
  | TimeUnit.millisecond => 7
  | TimeUnit.microsecond => 8
  | TimeUnit.nanosecond => 9

/-- Modelled from the spec: balance an exact nanosecond difference into a
time-unit duration whose largest populated unit is `lu`; every field is
truncated toward zero and all fields share the sign of the input (spec
section 4.2). -/
def balanceTimeNs (diff : Int) (lu : TimeUnit) : Duration :=
  let sign : Int := if diff < 0 then -1 else 1
  let a : Int := if diff < 0 then -diff else diff
  let hrs := if unitRank lu ≤ 4 then a / nsPerHour else 0
  let r1 := a - hrs * nsPerHour
  let mins := if unitRank lu ≤ 5 then r1 / nsPerMinute else 0
  let r2 := r1 - mins * nsPerMinute
  let secs := if unitRank lu ≤ 6 then r2 / nsPerSecond else 0
  let r3 := r2 - secs * nsPerSecond
  let ms := if unitRank lu ≤ 7 then r3 / 1000000 else 0
  let r4 := r3 - ms * 1000000
  let us := if unitRank lu ≤ 8 then r4 / 1000 else 0
  let r5 := r4 - us * 1000
  { years := 0, months := 0, weeks := 0, days := 0,
    hours := sign * hrs, minutes := sign * mins, seconds := sign * secs,
    milliseconds := sign * ms, microseconds := sign * us, nanoseconds := sign * r5 }

/-- Modelled from the spec: engine `until` for a time-unit `largestUnit` —
the exact Instant difference, balanced (spec section 4.5; the wrapper rejects
calendar largest units before calling the engine, so those are never
requested here). -/
def Temporal.ZonedDateTime.until (z other : Temporal.ZonedDateTime) (largestUnit : TimeUnit) : Duration :=
  balanceTimeNs (other.epochNanoseconds - z.epochNanoseconds) largestUnit

/-- Modelled from the spec: engine equality — same Instant, same time-zone
identifier, same calendar identifier (spec section 4.5: identifier string
equality). -/
def Temporal.ZonedDateTime.equals (a b : Temporal.ZonedDateTime) : Bool :=
  a.epochNanoseconds == b.epochNanoseconds && a.timeZoneId == b.timeZoneId &&
    a.calendarId == b.calendarId

/-- Left-pad a decimal string with zeros. -/
def zeroPad (k : Nat) (s : String) : String :=
  String.mk (List.replicate (k - s.length) (Char.ofNat 48)) ++ s

/-- Decimal string of an integer. -/
def intStr (n : Int) : String := toString n

def pad2 (n : Int) : String := zeroPad 2 (intStr n)

/-- ISO offset string `+HH:MM` / `-HH:MM` of an offset in nanoseconds. -/
def offsetIsoString (offNs : Int) : String :=
  let sign := if offNs < 0 then "-" else "+"
  let a := if offNs < 0 then -offNs else offNs
  sign ++ pad2 (a / nsPerHour) ++ ":" ++ pad2 ((a / nsPerMinute) % 60)

def fracIsoString (subns : Int) : String :=
  if subns = 0 then "" else "." ++ zeroPad 9 (intStr subns)

/-- Modelled from the spec: engine `toString` — ISO-8601 serialization with
offset and bracketed zone annotation (display formatting detail is out of
scope, spec sections 1 and 6; only totality and the IANA deferral matter to
the claims). -/
def Temporal.ZonedDateTime.toString (z : Temporal.ZonedDateTime) : String :=
  let pdt := z.toPlainDateTime
  zeroPad 4 (intStr pdt.year) ++ "-" ++ pad2 pdt.month ++ "-" ++ pad2 pdt.day ++
    "T" ++ pad2 pdt.hour ++ ":" ++ pad2 pdt.minute ++ ":" ++ pad2 pdt.second ++
    fracIsoString pdt.subsecondNs ++ offsetIsoString z.offsetNanoseconds ++
    "[" ++ z.timeZoneId ++ "]" ++
    (if z.calendarId = "iso8601" then "" else "[u-ca=" ++ z.calendarId ++ "]")

/-- Modelled from the spec: engine `toLocaleString` — locale-aware display
formatting is explicitly out of scope (spec sections 1 and 6); it is
modelled as a total function ignoring the locale argument, since the only
claim about it is that it succeeds for IANA zones. -/
def Temporal.ZonedDateTime.toLocaleString (z : Temporal.ZonedDateTime) (_locales : String) : String :=
  Temporal.ZonedDateTime.toString z

/-- Modelled from the spec: engine `PlainDateTime.prototype.toZonedDateTime`
(the entry used at icalendarTimeZones.mjs line 73) — resolve the wall-clock
fields in the named zone under the disambiguation policy.  The engine only
has rule tables for identifiers the environment recognises; any other
identifier is outside the range of representable zone values and is rejected
with a RangeError-equivalent (spec section 7). -/
def PlainDateTime.toZonedDateTime (pdt : PlainDateTime) (tzid : String) (dis : Disambiguation) :
    Except ErrKind Temporal.ZonedDateTime :=
  if supportedTimeZones.contains tzid then
    Except.ok
      { epochNanoseconds := resolveWall (ianaOffsetAt tzid) pdt.wallNs dis,
        timeZoneId := tzid, calendarId := pdt.calendarId }
  else Except.error ErrKind.rangeError

/-- Offset lookup of the `offsetNanoseconds` getter for a rule-based zone
(icalendarTimeZones.mjs lines 98-103): truncate the epoch value to whole
seconds (`epochMilliseconds` floors to milliseconds, `Math.floor(ms / 1000)`
to seconds), convert that UTC time into the zone and ask the zone for the
offset of the resulting local time, which the rule-table model answers by the
offset in effect at that instant (`ICAL.Timezone.utcOffset`, modelled from
spec section 6). -/
def ruleBasedOffsetNs (impl : Temporal.ZonedDateTime) (tz : TimeZone) : Int :=
  tz.offsetAt (impl.epochMilliseconds / 1000 * nsPerSecond)

/-- Wall-clock fields of the wrapper, as computed by
`ZonedDateTime.prototype.toPlainDateTime` (icalendarTimeZones.mjs
lines 87-92): for an IANA zone the engine derivation; for a rule-based zone
the engine's UTC fields (the inner engine value carries the `UTC`
identifier, line 35) shifted by the zone's offset in nanoseconds. -/
def implPlainDateTime (impl : Temporal.ZonedDateTime) (isIANA : Bool) (tz : TimeZone) : PlainDateTime :=
  if isIANA then impl.toPlainDateTime
  else impl.toPlainDateTime.add
    { years := 0, months := 0, weeks := 0, days := 0, hours := 0, minutes := 0,
      seconds := 0, milliseconds := 0, microseconds := 0,
      nanoseconds := ruleBasedOffsetNs impl tz }

/-- The iCalendar-aware wrapper class (icalendarTimeZones.mjs lines 7-282):
private backing fields `impl` (the engine value), `timeZone` (the
`ICAL.Timezone`-style capability, the source's `#timeZone`) and `isIANA`,
plus the public property-bag fields assigned by the constructor.  The
source's public `timeZone` property, set only for IANA zones, is
`timeZoneProp` here. -/
structure ZonedDateTime where
  impl : Temporal.ZonedDateTime
  timeZone : TimeZone
  isIANA : Bool
  era : Option String
  eraYear : Option Int
  year : Int
  month : Int
  monthCode : String
  day : Int
  hour : Int
  minute : Int
  second : Int
  millisecond : Int
  microsecond : Int
  nanosecond : Int
  calendar : String
  timeZoneProp : Option String
deriving Repr, DecidableEq

/-- The wrapper constructor (icalendarTimeZones.mjs lines 32-56): decide
IANA-ness from the environment's supported list, build the engine value with
the IANA identifier or the literal `UTC`, then store the twelve wall-clock
fields of `toPlainDateTime()` as public properties. -/
def ZonedDateTime.new (epochNs : Int) (timeZone : TimeZone) (calendar : String) : ZonedDateTime :=
  let isIANA := supportedTimeZones.contains timeZone.tzid
  let impl : Temporal.ZonedDateTime :=
    { epochNanoseconds := epochNs,
      timeZoneId := if isIANA then timeZone.tzid else "UTC",
      calendarId := calendar }
  let pdt := implPlainDateTime impl isIANA timeZone
  { impl := impl, timeZone := timeZone, isIANA := isIANA,
    era := pdt.era, eraYear := pdt.eraYear, year := pdt.year, month := pdt.month,
    monthCode := pdt.monthCode, day := pdt.day, hour := pdt.hour, minute := pdt.minute,
    second := pdt.second, millisecond := pdt.millisecond, microsecond := pdt.microsecond,
    nanosecond := pdt.nanosecond, calendar := calendar,
    timeZoneProp := if isIANA then some timeZone.tzid else none }

/-- Method `toPlainDateTime` (icalendarTimeZones.mjs lines 87-92). -/
def ZonedDateTime.toPlainDateTime (z : ZonedDateTime) : PlainDateTime :=
  implPlainDateTime z.impl z.isIANA z.timeZone

/-- Getter `offsetNanoseconds` (icalendarTimeZones.mjs lines 94-104). -/
def ZonedDateTime.offsetNanoseconds (z : ZonedDateTime) : Int :=
  if z.isIANA then z.impl.offsetNanoseconds else ruleBasedOffsetNs z.impl z.timeZone

/-- Getter `epochMilliseconds` (icalendarTimeZones.mjs lines 131-133). -/
def ZonedDateTime.epochMilliseconds (z : ZonedDateTime) : Int :=
  z.impl.epochMilliseconds

/-- Getter `epochNanoseconds` (icalendarTimeZones.mjs lines 135-137). -/
def ZonedDateTime.epochNanoseconds (z : ZonedDateTime) : Int :=
  z.impl.epochNanoseconds

/-- Method `toInstant` (icalendarTimeZones.mjs lines 206-208). -/
def ZonedDateTime.toInstant (z : ZonedDateTime) : Int :=
  z.impl.toInstant

/-- The offset the wrapper's own time-zone capability reports for an instant
(the `z.timeZone.getOffsetNanosecondsFor(z.toInstant())` of spec section 8):
the engine's database lookup for an IANA identifier, the rule-table
evaluation for a rule-based zone. -/
def ZonedDateTime.timeZoneOffsetFor (z : ZonedDateTime) (t : Int) : Int :=
  if z.isIANA then ianaOffsetAt z.timeZone.tzid t else z.timeZone.offsetAt t

/-- Static `fromInstant` (icalendarTimeZones.mjs lines 65-67). -/
def ZonedDateTime.fromInstant (instant : Int) (timeZone : TimeZone) (calendar : String) : ZonedDateTime :=
  ZonedDateTime.new instant timeZone calendar

/-- Static `fromPlainDateTime` (icalendarTimeZones.mjs lines 71-81).  The
source branches on the TRUTHINESS of `timeZone.tzid` (`if (timeZone.tzid)`),
i.e. on the identifier being a non-empty string — not on the identifier
being IANA-supported; every `ICAL.Timezone` carries a non-empty `tzid`, so
the first branch hands `timeZone.tzid` to the engine unconditionally and the
`ICAL.Time`-based branch below it is unreachable for such zones.  The
embedding reproduces that branch condition faithfully. -/
def ZonedDateTime.fromPlainDateTime (pdt : PlainDateTime) (timeZone : TimeZone)
    (dis : Disambiguation) : Except ErrKind ZonedDateTime :=
  if timeZone.tzid ≠ "" then
    (pdt.toZonedDateTime timeZone.tzid dis).map
      (fun temporalZDT => ZonedDateTime.new temporalZDT.epochNanoseconds timeZone pdt.calendarId)
  else
    let epochSeconds := icalToUnixTime timeZone pdt
    let epochNanoseconds :=
      epochSeconds * nsPerSecond +
        (pdt.millisecond * 1000000 + pdt.microsecond * 1000 + pdt.nanosecond)
    Except.ok (ZonedDateTime.new epochNanoseconds timeZone pdt.calendarId)

/-- Method `withCalendar` (icalendarTimeZones.mjs lines 145-147). -/
def ZonedDateTime.withCalendar (z : ZonedDateTime) (calendar : String) : ZonedDateTime :=
  ZonedDateTime.new z.impl.epochNanoseconds z.timeZone calendar

/-- Method `withTimeZone` (icalendarTimeZones.mjs lines 149-151). -/
def ZonedDateTime.withTimeZone (z : ZonedDateTime) (timeZone : TimeZone) : ZonedDateTime :=
  ZonedDateTime.new z.impl.epochNanoseconds timeZone z.impl.calendarId

/-- The fast path of `add` (icalendarTimeZones.mjs lines 160-161): delegate
to the engine and rewrap.  The slow path's trailing recursive call
`intermediate.add(timeOnly)` always lands here (a time-only duration has all
calendar units zero), so the recursion is unrolled into this helper. -/
def ZonedDateTime.addViaImpl (z : ZonedDateTime) (d : Duration) : ZonedDateTime :=
  ZonedDateTime.new (z.impl.add d).epochNanoseconds z.timeZone z.impl.calendarId

/-- Method `add` (icalendarTimeZones.mjs lines 155-183): when the zone is
IANA or the duration has no calendar units, delegate to the engine;
otherwise apply the calendar-unit part via PlainDateTime arithmetic on the
current wall-clock fields, rebuild an intermediate value through
`fromPlainDateTime` with `compatible` disambiguation, and add the time-unit
part to the intermediate (which takes the fast path).  The options argument
is not modelled: the only claims about `add` use the default overflow
policy. -/
def ZonedDateTime.add (z : ZonedDateTime) (d : Duration) : Except ErrKind ZonedDateTime :=
  if z.isIANA = true ∨ d.dateUnitsZero then
    Except.ok (z.addViaImpl d)
  else
    let pdt := z.toPlainDateTime.add d.dateOnly
    (ZonedDateTime.fromPlainDateTime pdt z.timeZone Disambiguation.compatible).map
      (fun intermediate => intermediate.addViaImpl d.timeOnly)

/-- Method `until` (icalendarTimeZones.mjs lines 190-196): reject the four
calendar largest units with the not-implemented error, otherwise delegate to
the engine.  The source defaults `largestUnit` to `hour`; callers of the
embedding pass `TimeUnit.hour` explicitly for the default. -/
def ZonedDateTime.until (z other : ZonedDateTime) (largestUnit : TimeUnit) : Except ErrKind Duration :=
  if largestUnit = TimeUnit.year ∨ largestUnit = TimeUnit.month ∨
      largestUnit = TimeUnit.week ∨ largestUnit = TimeUnit.day then
    Except.error ErrKind.notImplemented
  else
    Except.ok (z.impl.until other.impl largestUnit)

/-- Method `startOfDay` (icalendarTimeZones.mjs lines 198-204): same
calendar date, wall-clock time forced to 00:00, re-resolved through
`fromPlainDateTime` with `compatible` disambiguation. -/
def ZonedDateTime.startOfDay (z : ZonedDateTime) : Except ErrKind ZonedDateTime :=
  let pdt := z.toPlainDateTime
  ZonedDateTime.fromPlainDateTime (pdt.withPlainTime PlainTime.midnight) z.timeZone
    Disambiguation.compatible

/-- Method `valueOf` (icalendarTimeZones.mjs lines 218-220): always throws a
bare `TypeError`, preventing implicit primitive coercion. -/
def ZonedDateTime.valueOf (_z : ZonedDateTime) : Except ErrKind Int :=
  Except.error ErrKind.typeError

/-- Method `equals` (icalendarTimeZones.mjs lines 225-230): engine equality
when both operands are IANA, otherwise `new Error('not implemented')`. -/
def ZonedDateTime.equals (z other : ZonedDateTime) : Except ErrKind Bool :=
  if z.isIANA && other.isIANA then Except.ok (z.impl.equals other.impl)
  else Except.error ErrKind.notImplemented

/-- Method `toLocaleString` (icalendarTimeZones.mjs lines 265-270). -/
def ZonedDateTime.toLocaleString (z : ZonedDateTime) (locales : String) : Except ErrKind String :=
  if z.isIANA then Except.ok (z.impl.toLocaleString locales)
  else Except.error ErrKind.notImplemented

/-- Method `toString` (icalendarTimeZones.mjs lines 272-277). -/
def ZonedDateTime.toString (z : ZonedDateTime) : Except ErrKind String :=
  if z.isIANA then Except.ok (Temporal.ZonedDateTime.toString z.impl)
  else Except.error ErrKind.notImplemented

/-- Method `toJSON` (icalendarTimeZones.mjs lines 279-281): exactly
`this.toString()`. -/
def ZonedDateTime.toJSON (z : ZonedDateTime) : Except ErrKind String :=
  ZonedDateTime.toString z

/-- The twelve public wall-clock property-bag fields of a wrapper value. -/
def ZonedDateTime.fieldsTuple (z : ZonedDateTime) :
    Option String × Option Int × Int × Int × String × Int × Int × Int × Int × Int × Int × Int :=
  (z.era, z.eraYear, z.year, z.month, z.monthCode, z.day,
    z.hour, z.minute, z.second, z.millisecond, z.microsecond, z.nanosecond)

/-- The VTIMEZONE for America/Los_Angeles carried by the first sample event
(icalendarTimeZones.mjs lines 288-304), expanded to a rule table over the
window this development exercises (the 2012 DST transitions). -/
def icalLAzone : TimeZone :=
  { tzid := "America/Los_Angeles", initialOffset := -28800000000000,
    transitions := [(1331460000000000000, -25200000000000), (1352019600000000000, -28800000000000)] }

/-- The VTIMEZONE of the Microsoft Exchange sample event (icalendarTimeZones.mjs
lines 337-349): a fixed -07:00 rule-based zone with no DST (both its STANDARD
and DAYLIGHT components map -0700 to -0700). -/
def msMountainZone : TimeZone :=
  { tzid := "US Mountain Standard Time", initialOffset := -25200000000000, transitions := [] }

/-- A VTIMEZONE mirroring America/Sao_Paulo around its 2017 spring-forward
transition, which falls at local midnight (2017-10-15 00:00 jumps to 01:00;
the transition instant is 2017-10-15T03:00Z). -/
def spIcalZone : TimeZone :=
  { tzid := "America/Sao_Paulo", initialOffset := -10800000000000,
    transitions := [(1508036400000000000, -7200000000000)] }

/-- Scenario A value: local 2012-09-11T10:30 in America/Los_Angeles
(epoch 2012-09-11T17:30Z), the DTSTART of the first sample event. -/
def zdtA : ZonedDateTime := ZonedDateTime.new 1347384600000000000 icalLAzone ("iso8601")

/-- Scenario A value: local 2012-09-11T11:00 in America/Los_Angeles, the
DTEND of the first sample event. -/
def zdtB : ZonedDateTime := ZonedDateTime.new 1347386400000000000 icalLAzone ("iso8601")

/-- Scenario B value: epoch 2022-12-21T16:00Z in the fixed -07:00 rule-based
zone, whose local wall clock reads 2022-12-21T09:00 (the DTSTART of the
Microsoft Exchange sample event). -/
def msZdt : ZonedDateTime := ZonedDateTime.new 1671638400000000000 msMountainZone ("iso8601")

/-- A value in the Sao Paulo zone on 2017-10-15 (epoch 15:00Z, local 13:00),
the day whose local midnight does not exist. -/
def spZdt : ZonedDateTime := ZonedDateTime.new 1508079600000000000 spIcalZone ("iso8601")

/-- The duration P1Y3DT2H30M of Scenario D (icalendarTimeZones.mjs
line 470). -/
def dScenD : Duration := ⟨1, 0, 0, 3, 2, 30, 0, 0, 0, 0⟩

/-- The two phases of `add` applied in the reverse order of the source: the
time-unit part first, as an exact Instant shift, then the calendar-unit part
via wall-clock arithmetic re-resolved with `compatible` disambiguation.
Used only to exhibit the order-dependence of the two phases. -/
def swappedAdd (z : ZonedDateTime) (d : Duration) : Except ErrKind ZonedDateTime :=
  let shifted := ZonedDateTime.new (z.impl.epochNanoseconds + d.timeNs) z.timeZone z.impl.calendarId
  ZonedDateTime.fromPlainDateTime (shifted.toPlainDateTime.add d.dateOnly) z.timeZone
    Disambiguation.compatible

/-- Local 2012-03-10T23:30 in America/Los_Angeles (epoch 2012-03-11T07:30Z),
two and a half hours before the 2012 spring-forward transition. -/
def zdtW : ZonedDateTime := ZonedDateTime.new 1331451000000000000 icalLAzone ("iso8601")

/-- The duration P1DT3H, whose two phases straddle the spring-forward
transition when added to `zdtW`. -/
def dOrd : Duration := ⟨0, 0, 0, 1, 3, 0, 0, 0, 0, 0⟩

/-- C10: `valueOf` throws a `TypeError` for every wrapper value, IANA or
rule-based alike, so the wrapper can never be implicitly coerced to a
primitive. -/
theorem C10_valueOf_always_typeError (z : ZonedDateTime) :
    ZonedDateTime.valueOf z = Except.error ErrKind.typeError := rfl

/-- C8: `withTimeZone` and `withCalendar` each return a new instance whose
`epochNanoseconds` equals the receiver's — the Instant is unchanged, only
the swapped capability differs; the receiver itself is an immutable value
and is never mutated. -/
theorem C8_with_preserves_instant (z : ZonedDateTime) (tz : TimeZone) (cal : String) :
    (z.withTimeZone tz).epochNanoseconds = z.epochNanoseconds ∧
      (z.withCalendar cal).epochNanoseconds = z.epochNanoseconds :=
  ⟨rfl, rfl⟩

/-- C4: round-trip law — reconstructing a ZonedDateTime from
`(z.toInstant(), z.timeZone, z.calendar)` reproduces all twelve wall-clock
fields of `z`; equivalently, deriving the offset for `z.toInstant()` via
`z`'s time zone and decomposing via `z`'s calendar (which is what
`implPlainDateTime` computes) reproduces `z`'s stored wall-clock fields
exactly. -/
theorem C4_roundtrip_fields (ns : Int) (tz : TimeZone) (cal : String) :
    ZonedDateTime.fieldsTuple
        (ZonedDateTime.new (ZonedDateTime.new ns tz cal).toInstant
          (ZonedDateTime.new ns tz cal).timeZone (ZonedDateTime.new ns tz cal).calendar) =
      ZonedDateTime.fieldsTuple (ZonedDateTime.new ns tz cal) ∧
    ZonedDateTime.fieldsTuple (ZonedDateTime.new ns tz cal) =
      PlainDateTime.fieldsTuple
        (implPlainDateTime (ZonedDateTime.new ns tz cal).impl
          (ZonedDateTime.new ns tz cal).isIANA (ZonedDateTime.new ns tz cal).timeZone) :=
  ⟨rfl, rfl⟩

/-- C9: the wall-clock fields stored on a wrapper value at construction are
exactly the fields of its `toPlainDateTime()`; values are immutable, so the
agreement holds for the whole lifetime of the value. -/
theorem C9_stored_fields_eq_derived (ns : Int) (tz : TimeZone) (cal : String) :
    ZonedDateTime.fieldsTuple (ZonedDateTime.new ns tz cal) =
      PlainDateTime.fieldsTuple (ZonedDateTime.toPlainDateTime (ZonedDateTime.new ns tz cal)) :=
  rfl

/-- C5: for rule-based zones `toString`, `toJSON` and `toLocaleString` all
raise the not-implemented error rather than guessing a serialization format;
for IANA zones each succeeds by deferring to the engine; and `toJSON` always
returns exactly what `toString` returns. -/
theorem C5_serialization (z : ZonedDateTime) (loc : String) :
    ZonedDateTime.toJSON z = ZonedDateTime.toString z ∧
    (z.isIANA = false →
      ZonedDateTime.toString z = Except.error ErrKind.notImplemented ∧
      ZonedDateTime.toJSON z = Except.error ErrKind.notImplemented ∧
      ZonedDateTime.toLocaleString z loc = Except.error ErrKind.notImplemented) ∧
    (z.isIANA = true →
      (∃ s, ZonedDateTime.toString z = Except.ok s) ∧
      (∃ s, ZonedDateTime.toJSON z = Except.ok s) ∧
      (∃ s, ZonedDateTime.toLocaleString z loc = Except.ok s)) := by
  refine ⟨rfl, ?_, ?_⟩
  · intro h
    simp [ZonedDateTime.toString, ZonedDateTime.toJSON, ZonedDateTime.toLocaleString, h]
  · intro h
    exact ⟨⟨Temporal.ZonedDateTime.toString z.impl, by simp [ZonedDateTime.toString, h]⟩,
      ⟨Temporal.ZonedDateTime.toString z.impl, by simp [ZonedDateTime.toJSON, ZonedDateTime.toString, h]⟩,
      ⟨Temporal.ZonedDateTime.toLocaleString z.impl loc, by simp [ZonedDateTime.toLocaleString, h]⟩⟩

/-- Witness for C5 at the Scenario A and Scenario B values. -/
theorem C5_witness :
    msZdt.isIANA = false ∧ zdtA.isIANA = true ∧
    ZonedDateTime.toString msZdt = Except.error ErrKind.notImplemented ∧
    (∃ s, ZonedDateTime.toString zdtA = Except.ok s) :=
  ⟨by decide, by decide,
    ((C5_serialization msZdt ("en")).2.1 (by decide)).1,
    ((C5_serialization zdtA ("en")).2.2 (by decide)).1⟩

/-- C7 counterexample: the claim says comparing values with a rule-based
zone fails with a TypeError-equivalent error; on the code, `equals` at the
rule-based Scenario B value throws the not-implemented error (`new
Error('not implemented')`, the same kind as the other deliberate gaps), not
a TypeError. -/
theorem C7_counterexample :
    ZonedDateTime.equals msZdt msZdt = Except.error ErrKind.notImplemented ∧
    ZonedDateTime.equals msZdt msZdt ≠ Except.error ErrKind.typeError := by
  constructor
  · rfl
  · intro h
    exact ErrKind.noConfusion (Except.error.inj h)

/-- C7 (amended): `equals` is well-defined when both operands are IANA —
it compares the Instant plus time-zone and calendar identity by identifier
equality — and when either operand is rule-based it fails with the
not-implemented error (not a TypeError) rather than returning a speculative
answer. -/
theorem C7_equals_behavior (a b : ZonedDateTime) :
    (a.isIANA = true → b.isIANA = true →
      ZonedDateTime.equals a b = Except.ok (a.impl.equals b.impl) ∧
      (ZonedDateTime.equals a b = Except.ok true ↔
        a.impl.epochNanoseconds = b.impl.epochNanoseconds ∧
          a.impl.timeZoneId = b.impl.timeZoneId ∧ a.impl.calendarId = b.impl.calendarId)) ∧
    ((a.isIANA = false ∨ b.isIANA = false) →
      ZonedDateTime.equals a b = Except.error ErrKind.notImplemented) := by
  constructor
  · intro h1 h2
    constructor
    · simp [ZonedDateTime.equals, h1, h2]
    · simp [ZonedDateTime.equals, h1, h2, Temporal.ZonedDateTime.equals,
        Bool.and_eq_true, beq_iff_eq, and_assoc]
  · intro h
    rcases h with h | h <;> simp [ZonedDateTime.equals, h]

/-- Witness for C7 at the Scenario A and Scenario B values. -/
theorem C7_witness :
    (zdtA.isIANA = true ∧ ZonedDateTime.equals zdtA zdtA = Except.ok true) ∧
    (msZdt.isIANA = false ∧ ZonedDateTime.equals msZdt zdtA = Except.error ErrKind.notImplemented) :=
  ⟨⟨by decide, ((C7_equals_behavior zdtA zdtA).1 (by decide) (by decide)).2.mpr
      ⟨rfl, rfl, rfl⟩⟩,
    ⟨by decide, (C7_equals_behavior msZdt zdtA).2 (Or.inl (by decide))⟩⟩

/-- Balancing an exact nanosecond difference into time units loses nothing:
the total nanoseconds of the balanced duration equal the input, whatever the
largest unit requested. -/
theorem timeNs_balanceTimeNs (diff : Int) (lu : TimeUnit) :
    (balanceTimeNs diff lu).timeNs = diff := by
  cases lu <;>
    norm_num [balanceTimeNs, unitRank, Duration.timeNs, nsPerHour, nsPerMinute, nsPerSecond] <;>
    split_ifs <;> omega

/-- C2: `until` with a largestUnit of hour or smaller returns the exact
Instant difference as a time-unit-only duration (for any two values in the
same zone); with largestUnit year, month, week or day on a rule-based-zone
value it fails loudly with the distinct not-implemented error; and on the
Scenario A pair (local 2012-09-11T10:30 to 11:00 in America/Los_Angeles,
default largestUnit hour) the difference is exactly 30 minutes. -/
theorem C2_until_exact_or_notImplemented :
    (∀ (z other : ZonedDateTime) (lu : TimeUnit), z.timeZone = other.timeZone →
      4 ≤ unitRank lu →
      ∃ dur : Duration, ZonedDateTime.until z other lu = Except.ok dur ∧
        dur.timeNs = other.epochNanoseconds - z.epochNanoseconds ∧
        dur.years = 0 ∧ dur.months = 0 ∧ dur.weeks = 0 ∧ dur.days = 0) ∧
    (∀ (z other : ZonedDateTime) (lu : TimeUnit), z.isIANA = false →
      (lu = TimeUnit.year ∨ lu = TimeUnit.month ∨ lu = TimeUnit.week ∨ lu = TimeUnit.day) →
      ZonedDateTime.until z other lu = Except.error ErrKind.notImplemented) ∧
    ZonedDateTime.until zdtA zdtB TimeUnit.hour = Except.ok ⟨0, 0, 0, 0, 0, 30, 0, 0, 0, 0⟩ := by
  refine ⟨?_, ?_, by decide⟩
  · intro z other lu htz hlu
    have hcond : ¬(lu = TimeUnit.year ∨ lu = TimeUnit.month ∨
        lu = TimeUnit.week ∨ lu = TimeUnit.day) := by
      rcases lu <;> simp_all [unitRank]
    refine ⟨z.impl.until other.impl lu, ?_, ?_, rfl, rfl, rfl, rfl⟩
    · simp only [ZonedDateTime.until, if_neg hcond]
    · exact timeNs_balanceTimeNs _ _
  · intro z other lu hz hlu
    rcases hlu with h | h | h | h <;> simp [ZonedDateTime.until, h]

/-- Witness for C2: the Scenario A pair for the exact-difference part and
the Scenario B rule-based value for the not-implemented part. -/
theorem C2_witness :
    (zdtA.timeZone = zdtB.timeZone ∧ 4 ≤ unitRank TimeUnit.hour ∧
      (∃ dur : Duration, ZonedDateTime.until zdtA zdtB TimeUnit.hour = Except.ok dur ∧
        dur.timeNs = zdtB.epochNanoseconds - zdtA.epochNanoseconds ∧
        dur.years = 0 ∧ dur.months = 0 ∧ dur.weeks = 0 ∧ dur.days = 0)) ∧
    (msZdt.isIANA = false ∧
      ZonedDateTime.until msZdt msZdt TimeUnit.year = Except.error ErrKind.notImplemented) :=
  ⟨⟨rfl, by decide,
      C2_until_exact_or_notImplemented.1 zdtA zdtB TimeUnit.hour rfl (by decide)⟩,
    ⟨by decide,
      C2_until_exact_or_notImplemented.2.1 msZdt msZdt TimeUnit.year (by decide) (Or.inl rfl)⟩⟩

/-- A rule-table offset lookup cannot distinguish an instant from its
truncation to whole seconds when every transition sits on a whole-second
boundary. -/
theorem offsetFromTable_secondFloor (init : Int) (trs : List (Int × Int)) (t : Int)
    (h : ∀ p ∈ trs, p.1 % nsPerSecond = 0) :
    offsetFromTable init trs (t / nsPerSecond * nsPerSecond) = offsetFromTable init trs t := by
  induction trs generalizing init with
  | nil => rfl
  | cons tr rest ih =>
      have h1 : tr.1 % nsPerSecond = 0 := h tr (List.mem_cons_self tr rest)
      have hc : tr.1 ≤ t / nsPerSecond * nsPerSecond ↔ tr.1 ≤ t := by
        simp only [nsPerSecond] at h1 ⊢
        omega
      have hrest : ∀ p ∈ rest, p.1 % nsPerSecond = 0 :=
        fun p hp => h p (List.mem_cons_of_mem tr hp)
      simp only [offsetFromTable]
      rcases Decidable.em (tr.1 ≤ t) with hle | hle
      · rw [if_pos hle, if_pos (hc.mpr hle)]
        exact ih _ hrest
      · rw [if_neg hle, if_neg (fun hh => hle (hc.mp hh))]
        exact ih _ hrest

/-- Second-truncation invariance of a second-aligned zone's offset lookup. -/
theorem TimeZone.offsetAt_secondFloor (tz : TimeZone) (t : Int) (h : tz.secondAligned) :
    tz.offsetAt (t / nsPerSecond * nsPerSecond) = tz.offsetAt t :=
  offsetFromTable_secondFloor tz.initialOffset tz.transitions t h

/-- C3: `offsetNanoseconds` always equals the offset the value's time zone
reports for its `toInstant()` (for any second-aligned rule table — every
VTIMEZONE and IANA table is; the rule-based getter truncates the epoch value
to whole seconds before asking the zone, which such a table cannot
distinguish); in particular, on the fixed -07:00 rule-based zone with no DST
the getter answers exactly -7*3600e9 at every instant. -/
theorem C3_offset_consistency :
    (∀ (ns : Int) (tz : TimeZone) (cal : String), tz.secondAligned →
      (ZonedDateTime.new ns tz cal).offsetNanoseconds =
        (ZonedDateTime.new ns tz cal).timeZoneOffsetFor (ZonedDateTime.new ns tz cal).toInstant) ∧
    (∀ t : Int,
      (ZonedDateTime.new t msMountainZone ("iso8601")).offsetNanoseconds = -25200000000000) := by
  constructor
  · intro ns tz cal hal
    rcases hI : supportedTimeZones.contains tz.tzid with hfalse | htrue
    · show ZonedDateTime.offsetNanoseconds _ = _
      simp only [ZonedDateTime.new, ZonedDateTime.offsetNanoseconds,
        ZonedDateTime.timeZoneOffsetFor, ZonedDateTime.toInstant,
        Temporal.ZonedDateTime.toInstant, hI, if_neg, Bool.false_eq_true, ite_false,
        ruleBasedOffsetNs, Temporal.ZonedDateTime.epochMilliseconds]
      have h2 : ns / 1000000 / 1000 = ns / nsPerSecond := by
        simp only [nsPerSecond]; omega
      rw [h2]
      exact TimeZone.offsetAt_secondFloor tz ns hal
    · simp only [ZonedDateTime.new, ZonedDateTime.offsetNanoseconds,
        ZonedDateTime.timeZoneOffsetFor, ZonedDateTime.toInstant,
        Temporal.ZonedDateTime.toInstant, Temporal.ZonedDateTime.offsetNanoseconds,
        hI, ite_true]
  · intro t
    rfl

/-- Witness for C3: the Scenario A zone (second-aligned, IANA) and the
Scenario B fixed -07:00 rule-based zone at epoch 2022-12-21T16:00Z. -/
theorem C3_witness :
    icalLAzone.secondAligned ∧
    zdtA.offsetNanoseconds = zdtA.timeZoneOffsetFor zdtA.toInstant ∧
    msZdt.offsetNanoseconds = -25200000000000 :=
  ⟨by decide,
    C3_offset_consistency.1 1347384600000000000 icalLAzone ("iso8601") (by decide),
    C3_offset_consistency.2 1671638400000000000⟩

/-- C1 (code bug): the two-phase `add` algorithm the claim describes is
unreachable for rule-based zones.  `fromPlainDateTime` branches on the
truthiness of `timeZone.tzid` (non-empty string) instead of on
IANA-supportedness, and every iCalendar zone carries a non-empty `tzid`, so
the slow path of `add` hands the rule-based identifier to the engine, which
rejects it — calendar-unit `add` on any rule-based zone with a non-empty
identifier fails with the engine's RangeError instead of producing the
intermediate value.  Scenario D's input (the fixed -07:00 zone,
P1Y3DT2H30M) fails concretely.  On the reachable IANA path the two phases
are genuinely order-dependent: adding P1DT3H across the 2012 Los Angeles
spring-forward differs by an hour from the phase-swapped addition. -/
theorem C1_add_two_phase_bug :
    ZonedDateTime.add msZdt dScenD = Except.error ErrKind.rangeError ∧
    (∀ (z : ZonedDateTime) (d : Duration), z.isIANA = false → ¬d.dateUnitsZero →
      supportedTimeZones.contains z.timeZone.tzid = false → z.timeZone.tzid ≠ "" →
      ZonedDateTime.add z d = Except.error ErrKind.rangeError) ∧
    ZonedDateTime.add zdtW dOrd ≠ swappedAdd zdtW dOrd := by
  refine ⟨by decide, ?_, by decide⟩
  intro z d h1 h2 h3 h4
  have hcond : ¬(z.isIANA = true ∨ d.dateUnitsZero) := by
    rintro (hh | hh)
    · rw [h1] at hh
      exact Bool.false_ne_true hh
    · exact h2 hh
  have h3m : z.timeZone.tzid ∉ supportedTimeZones := by simpa using h3
  simp only [ZonedDateTime.add, if_neg hcond]
  simp only [ZonedDateTime.fromPlainDateTime, if_pos h4]
  simp [PlainDateTime.toZonedDateTime, h3m, Except.map]

/-- Witness for C1 at the Scenario D failing input. -/
theorem C1_witness :
    msZdt.isIANA = false ∧ ¬dScenD.dateUnitsZero ∧
    supportedTimeZones.contains msZdt.timeZone.tzid = false ∧ msZdt.timeZone.tzid ≠ "" ∧
    ZonedDateTime.add msZdt dScenD = Except.error ErrKind.rangeError :=
  ⟨by decide, by decide, by decide, by decide,
    C1_add_two_phase_bug.2.1 msZdt dScenD (by decide) (by decide) (by decide) (by decide)⟩

/-- C6 (code bug): `startOfDay` does reconstruct the same calendar date with
the wall-clock time forced to 00:00 and re-resolves it with `compatible`
disambiguation, and on the reachable IANA path a nonexistent local midnight
is still mapped to exactly one Instant (Sao Paulo 2017-10-15: midnight has
no instants, yet `startOfDay` yields exactly the transition instant, local
01:00 of the same date).  But the re-resolution goes through
`fromPlainDateTime`, whose branch condition is the truthiness of
`timeZone.tzid` rather than IANA-supportedness, so for every rule-based zone
with a non-empty identifier the reconstruction is handed to the engine and
fails with its RangeError — concretely, `startOfDay` on the fixed -07:00
rule-based Scenario B value errors instead of returning local 00:00. -/
theorem C6_startOfDay_bug :
    ZonedDateTime.startOfDay msZdt = Except.error ErrKind.rangeError ∧
    (∀ z : ZonedDateTime, ZonedDateTime.startOfDay z =
      ZonedDateTime.fromPlainDateTime (z.toPlainDateTime.withPlainTime PlainTime.midnight)
        z.timeZone Disambiguation.compatible) ∧
    (∀ (pdt : PlainDateTime) (tz : TimeZone) (dis : Disambiguation), tz.tzid ≠ "" →
      ZonedDateTime.fromPlainDateTime pdt tz dis =
        Except.map (fun t => ZonedDateTime.new t.epochNanoseconds tz pdt.calendarId)
          (pdt.toZonedDateTime tz.tzid dis)) ∧
    (possibleInstants (ianaOffsetAt ("America/Sao_Paulo")) 1508025600000000000 = [] ∧
      ZonedDateTime.startOfDay spZdt =
        Except.ok (ZonedDateTime.new 1508036400000000000 spIcalZone ("iso8601")) ∧
      spZdt.year = 2017 ∧ spZdt.month = 10 ∧ spZdt.day = 15 ∧
      (ZonedDateTime.new 1508036400000000000 spIcalZone ("iso8601")).year = 2017 ∧
      (ZonedDateTime.new 1508036400000000000 spIcalZone ("iso8601")).month = 10 ∧
      (ZonedDateTime.new 1508036400000000000 spIcalZone ("iso8601")).day = 15 ∧
      (ZonedDateTime.new 1508036400000000000 spIcalZone ("iso8601")).hour = 1 ∧
      (ZonedDateTime.new 1508036400000000000 spIcalZone ("iso8601")).minute = 0) := by
  refine ⟨by decide, fun z => rfl, ?_, by decide⟩
  intro pdt tz dis h
  simp only [ZonedDateTime.fromPlainDateTime, if_pos h]

/-- Witness for C6: the Scenario B rule-based zone has a non-empty
identifier, so its midnight reconstruction is routed to the engine. -/
theorem C6_witness :
    msMountainZone.tzid ≠ "" ∧
    ZonedDateTime.fromPlainDateTime (msZdt.toPlainDateTime.withPlainTime PlainTime.midnight)
        msMountainZone Disambiguation.compatible =
      Except.map
        (fun t => ZonedDateTime.new t.epochNanoseconds msMountainZone
          (msZdt.toPlainDateTime.withPlainTime PlainTime.midnight).calendarId)
        ((msZdt.toPlainDateTime.withPlainTime PlainTime.midnight).toZonedDateTime
          msMountainZone.tzid Disambiguation.compatible) :=
  ⟨by decide,
    C6_startOfDay_bug.2.2.1 (msZdt.toPlainDateTime.withPlainTime PlainTime.midnight)
      msMountainZone Disambiguation.compatible (by decide)⟩
